import Mathlib

/-!
# Verification of the price-feeder core

A shallow embedding of the NibiruChain price-feeder core in Lean 4:
the `PriceProvider` cache/staleness model, the keyring signing adapter,
the voting orchestration of the `Feeder`, and a small-step model of the
provider's consumer-task shutdown handshake.

Go maps are embedded as association lists (`List (k × v)`) with
`List.lookup`; a read of a missing key yields the Go zero value where the
source relies on that.  Prices are Go `float64` values that the core only
copies and compares, never computes with, so they are embedded as `ℚ`.
Timestamps are embedded as integers; `time.Since t` at the moment `now`
is `now - t`.
-/

namespace PriceFeeder

/-- `common.AssetPair`: chain-facing identifier of an asset pair.
The core treats it as an opaque key, embedded by its canonical string. -/
abbrev AssetPair := String

/-- `types.Symbol`: exchange-specific ticker string. -/
abbrev Symbol := String

/-- `types.RawPrice`: the latest tick for one symbol. -/
structure RawPrice where
  price : ℚ
  updateTime : ℤ
  deriving Repr, DecidableEq

/-- The Go zero value of `types.RawPrice`, returned by a map read on a
missing key. -/
def RawPrice.zero : RawPrice := ⟨0, 0⟩

/-- `types.Price`: ephemeral per-query result of `GetPrice`. -/
structure Price where
  pair : AssetPair
  price : ℚ
  sourceName : String
  valid : Bool
  deriving Repr, DecidableEq

/-- The pure state of a `PriceProvider`: its source name, the fixed
pair→symbol mapping, and the `lastPrices` cache. -/
structure PriceProvider where
  sourceName : String
  pairToSymbolMapping : List (AssetPair × Symbol)
  lastPrices : List (Symbol × RawPrice)
  deriving Repr, DecidableEq

/-- `isValid` from the provider: a price is valid iff it was found and
`time.Since(price.UpdateTime) < types.PriceTimeout`.  The timeout
constant `types.PriceTimeout` lives outside the embedded files, so it is
passed explicitly. -/
def isValid (priceTimeout now : ℤ) (price : RawPrice) (found : Bool) : Bool :=
  found && decide (now - price.updateTime < priceTimeout)

/-- `PriceProvider.GetPrice`: unmapped pairs yield the abstain sentinel
`-1` immediately; mapped pairs read the cache (Go zero value if the
symbol was never written) and attach the staleness verdict. -/
def PriceProvider.GetPrice (p : PriceProvider) (priceTimeout now : ℤ)
    (pair : AssetPair) : Price :=
  match p.pairToSymbolMapping.lookup pair with
  | none =>
      { pair := pair
        price := -1
        sourceName := p.sourceName
        valid := false }
  | some symbol =>
      let cached := p.lastPrices.lookup symbol
      let price := cached.getD RawPrice.zero
      { pair := pair
        price := price.price
        sourceName := p.sourceName
        valid := isValid priceTimeout now price cached.isSome }

/-! ## Feeder orchestration

The `Feeder` implementation file is not among the embedded sources; only
its test is.  The definitions below are therefore modelled from the spec
(§4.3) together with the behaviour pinned down by `feeder_test.go`. -/

/-- `types.Params`: current governance configuration. -/
structure Params where
  pairs : List AssetPair
  votePeriodBlocks : ℕ
  deriving Repr, DecidableEq

/-- `types.VotingPeriod`: a voting-period-start trigger event. -/
structure VotingPeriod where
  height : ℕ
  deriving Repr, DecidableEq

/-- The orchestrator state owned by the Feeder's reactive loop: the
currently held `Params`, initially the Go zero value (no pairs). -/
structure Feeder where
  params : Params
  deriving Repr, DecidableEq

/-- The Go zero value `types.Params{}` the Feeder starts from before any
parameter update arrives. -/
def Feeder.initial : Feeder := ⟨⟨[], 0⟩⟩

/-- Events the Feeder's reactive loop reacts to. -/
inductive FeederEvent where
  | paramsUpdate (p : Params)
  | votingPeriod (vp : VotingPeriod)
  deriving Repr, DecidableEq

/-- Modelled from the spec: on a voting-period event an invalid price is
"forced to the abstain convention" before being handed to `SendPrices`;
the test expects the price value replaced by `0.0` and the rest of the
entry (pair, source name, valid flag) unchanged. -/
def toAbstain (p : Price) : Price :=
  if p.valid then p else { p with price := 0 }

/-- Modelled from the spec: on a voting-period-start event the Feeder
queries `GetPrice` for each pair of the current `Params.pairs`,
preserving order, one entry per pair, substituting abstain for invalid
entries. -/
def assembleVotes (getPrice : AssetPair → Price) (params : Params) :
    List Price :=
  params.pairs.map fun pair => toAbstain (getPrice pair)

/-- Modelled from the spec: one iteration of the Feeder's reactive loop.
A parameter update wholesale-replaces the held `Params`; a voting-period
event leaves the state unchanged and emits the
`PricePoster.SendPrices(height, votes)` call. -/
def handleEvent (getPrice : AssetPair → Price) (f : Feeder) :
    FeederEvent → Feeder × Option (ℕ × List Price)
  | .paramsUpdate p => (⟨p⟩, none)
  | .votingPeriod vp => (f, some (vp.height, assembleVotes getPrice f.params))

/-! ## Keyring signing adapter (`config/keyring.go`)

`privKeyKeyring` holds a single address/public-key/private-key triple.
Addresses, keys and signatures are opaque byte blobs to this code and
are embedded as naturals; messages as lists of naturals.  The secp256k1
signing primitive is external to the repository, so it is passed as a
function of type `PrivKey → Msg → Except String Sig`.  A Go call either
returns a value, returns an error value, or panics; `GoResult` records
which. -/

/-- `sdk.AccAddress`, opaque. -/
abbrev Address := ℕ

/-- `cryptotypes.PubKey`, opaque. -/
abbrev PubKey := ℕ

/-- `cryptotypes.PrivKey`, opaque. -/
abbrev PrivKey := ℕ

/-- A message to sign (`[]byte`). -/
abbrev Msg := List ℕ

/-- A produced signature (`[]byte`), opaque. -/
abbrev Sig := ℕ

/-- Outcome of a Go call: a returned value, a returned error value, or
a panic that aborts the caller. -/
inductive GoResult (α : Type) where
  | ok (a : α)
  | err (msg : String)
  | panicked (msg : String)
  deriving Repr, DecidableEq

/-- `keyring.Info` as materialised by the adapter's `info` struct. -/
structure Info where
  pubKey : PubKey
  addr : Address
  deriving Repr, DecidableEq

/-- `privKeyKeyring`: the single held triple. -/
structure PrivKeyKeyring where
  addr : Address
  pubKey : PubKey
  privKey : PrivKey
  deriving Repr, DecidableEq

/-- `privKeyKeyring.KeyByAddress`: the held key's info on an address
match, a "key not found" error value otherwise. -/
def PrivKeyKeyring.KeyByAddress (k : PrivKeyKeyring) (address : Address) :
    GoResult Info :=
  if address ≠ k.addr then .err "key not found"
  else .ok ⟨k.pubKey, k.addr⟩

/-- `privKeyKeyring.Key`: ignores the uid, delegates to `KeyByAddress`
at the held address. -/
def PrivKeyKeyring.Key (k : PrivKeyKeyring) (uid : String) : GoResult Info :=
  k.KeyByAddress k.addr

/-- `privKeyKeyring.SignByAddress`: "key not found" error on an address
mismatch; otherwise signs with the held private key, propagating a
signing error, and returns the signature with the held public key. -/
def PrivKeyKeyring.SignByAddress (sign : PrivKey → Msg → Except String Sig)
    (k : PrivKeyKeyring) (address : Address) (msg : Msg) :
    GoResult (Sig × PubKey) :=
  if k.addr ≠ address then .err "key not found"
  else
    match sign k.privKey msg with
    | .error e => .err e
    | .ok signed => .ok (signed, k.pubKey)

/-- `privKeyKeyring.Sign`: ignores the uid, delegates to
`SignByAddress` at the held address. -/
def PrivKeyKeyring.Sign (sign : PrivKey → Msg → Except String Sig)
    (k : PrivKeyKeyring) (uid : String) (msg : Msg) :
    GoResult (Sig × PubKey) :=
  PrivKeyKeyring.SignByAddress sign k k.addr msg

/-- The message of every "must never be called" panic in the adapter. -/
def mustNeverBeCalled : String := "must never be called"

/-- `keyring.SigningAlgoList`, embedded by the algorithm names. -/
abbrev SigningAlgoList := List String

/-- `privKeyKeyring.List`: panics. -/
def PrivKeyKeyring.List (k : PrivKeyKeyring) : GoResult (List Info) :=
  .panicked mustNeverBeCalled

/-- `privKeyKeyring.SupportedAlgorithms`: panics. -/
def PrivKeyKeyring.SupportedAlgorithms (k : PrivKeyKeyring) :
    GoResult (SigningAlgoList × SigningAlgoList) :=
  .panicked mustNeverBeCalled

/-- `privKeyKeyring.Delete`: panics. -/
def PrivKeyKeyring.Delete (k : PrivKeyKeyring) (uid : String) : GoResult Unit :=
  .panicked mustNeverBeCalled

/-- `privKeyKeyring.DeleteByAddress`: panics. -/
def PrivKeyKeyring.DeleteByAddress (k : PrivKeyKeyring) (address : Address) :
    GoResult Unit :=
  .panicked mustNeverBeCalled

/-- `privKeyKeyring.NewMnemonic`: panics. -/
def PrivKeyKeyring.NewMnemonic (k : PrivKeyKeyring)
    (uid language hdPath bip39Passphrase algo : String) :
    GoResult (Info × String) :=
  .panicked mustNeverBeCalled

/-- `privKeyKeyring.NewAccount`: panics. -/
def PrivKeyKeyring.NewAccount (k : PrivKeyKeyring)
    (uid mnemonic bip39Passphrase hdPath algo : String) : GoResult Info :=
  .panicked mustNeverBeCalled

/-- `privKeyKeyring.SaveLedgerKey`: panics. -/
def PrivKeyKeyring.SaveLedgerKey (k : PrivKeyKeyring) (uid algo hrp : String)
    (coinType account index : ℕ) : GoResult Info :=
  .panicked mustNeverBeCalled

/-- `privKeyKeyring.SavePubKey`: panics. -/
def PrivKeyKeyring.SavePubKey (k : PrivKeyKeyring) (uid : String)
    (pubkey : PubKey) (algo : String) : GoResult Info :=
  .panicked mustNeverBeCalled

/-- `privKeyKeyring.SaveMultisig`: panics. -/
def PrivKeyKeyring.SaveMultisig (k : PrivKeyKeyring) (uid : String)
    (pubkey : PubKey) : GoResult Info :=
  .panicked mustNeverBeCalled

/-- `privKeyKeyring.ImportPrivKey`: panics. -/
def PrivKeyKeyring.ImportPrivKey (k : PrivKeyKeyring)
    (uid armor passphrase : String) : GoResult Unit :=
  .panicked mustNeverBeCalled

/-- `privKeyKeyring.ImportPubKey`: panics. -/
def PrivKeyKeyring.ImportPubKey (k : PrivKeyKeyring) (uid armor : String) :
    GoResult Unit :=
  .panicked mustNeverBeCalled

/-- `privKeyKeyring.ExportPubKeyArmor`: panics. -/
def PrivKeyKeyring.ExportPubKeyArmor (k : PrivKeyKeyring) (uid : String) :
    GoResult String :=
  .panicked mustNeverBeCalled

/-- `privKeyKeyring.ExportPubKeyArmorByAddress`: panics. -/
def PrivKeyKeyring.ExportPubKeyArmorByAddress (k : PrivKeyKeyring)
    (address : Address) : GoResult String :=
  .panicked mustNeverBeCalled

/-- `privKeyKeyring.ExportPrivKeyArmor`: panics. -/
def PrivKeyKeyring.ExportPrivKeyArmor (k : PrivKeyKeyring)
    (uid encryptPassphrase : String) : GoResult String :=
  .panicked mustNeverBeCalled

/-- `privKeyKeyring.ExportPrivKeyArmorByAddress`: panics. -/
def PrivKeyKeyring.ExportPrivKeyArmorByAddress (k : PrivKeyKeyring)
    (address : Address) (encryptPassphrase : String) : GoResult String :=
  .panicked mustNeverBeCalled

/-! ## Provider construction (`NewPriceProvider`)

The registered exchange names and `sources.NewTickSource` live in the
`sources` package, outside the embedded files; their string values are
opaque here and only their distinctness matters. -/

/-- Modelled from the spec: the Bitfinex exchange name constant of the
sources package (value opaque; only distinctness from `Binance` is
used). -/
def sources.Bitfinex : String := "bitfinex"

/-- Modelled from the spec: the Binance exchange name constant of the
sources package. -/
def sources.Binance : String := "binance"

/-- `symbolsFromPairToSymbolMapping`: the symbols (map values) of the
pair→symbol mapping. -/
def symbolsFromPairToSymbolMapping (m : List (AssetPair × Symbol)) :
    List Symbol :=
  m.map fun kv => kv.2

/-- Modelled from the spec: what `sources.NewTickSource` is built from —
the subscribed symbols and which exchange price-update protocol drives
it. -/
structure TickSource where
  symbols : List Symbol
  updateFn : String
  deriving Repr, DecidableEq

/-- The observable result of `NewPriceProvider`: the tick source it
built and the provider state wrapping it. -/
structure BuiltPriceProvider where
  source : TickSource
  sourceName : String
  pairToSymbolMapping : List (AssetPair × Symbol)
  deriving Repr, DecidableEq

/-- `NewPriceProvider`: selects the connector by exchange name, panics
on an unknown name, and otherwise wraps a tick source built from the
mapping's symbols. -/
def NewPriceProvider (sourceName : String)
    (pairToSymbolMap : List (AssetPair × Symbol)) :
    GoResult BuiltPriceProvider :=
  if sourceName = sources.Bitfinex then
    .ok ⟨⟨symbolsFromPairToSymbolMapping pairToSymbolMap,
          "BitfinexPriceUpdate"⟩, sourceName, pairToSymbolMap⟩
  else if sourceName = sources.Binance then
    .ok ⟨⟨symbolsFromPairToSymbolMapping pairToSymbolMap,
          "BinancePriceUpdate"⟩, sourceName, pairToSymbolMap⟩
  else
    .panicked ("unknown price provider: " ++ sourceName)

/-! ## Shutdown handshake of the consumer task

A small-step interleaving model of `PriceProvider.loop` and
`PriceProvider.Close` as written in the source: `loop` selects between
the stop signal and the next batch, and on stop runs its deferred
`source.Close()` and `close(done)`; `Close` closes the stop channel and
then blocks on `done`.  Go's `select` picks any ready case, so a pending
batch may still be applied after the stop signal is raised — but never
after `done` is closed. -/

/-- Control position of the consumer task. -/
inductive LoopPhase where
  /-- Blocked in the `select` of `loop`. -/
  | running
  /-- Left the loop; the deferred `p.source.Close()` is about to run. -/
  | closingSource
  /-- The deferred `close(p.done)` is about to run. -/
  | closingDone
  /-- The consumer task has fully exited. -/
  | exited
  deriving Repr, DecidableEq

/-- A global state of one provider: the consumer task's position, the
channel flags, and counters for the externally visible effects. -/
structure PPState where
  loopPhase : LoopPhase
  stopClosed : Bool
  doneClosed : Bool
  sourceCloseCount : ℕ
  closeCalled : Bool
  closeReturned : Bool
  cacheWrites : ℕ
  deriving Repr, DecidableEq

/-- The state right after `newPriceProvider` spawned the loop. -/
def PPState.init : PPState :=
  ⟨.running, false, false, 0, false, false, 0⟩

/-- One interleaving step of the consumer task or of the `Close`
caller. -/
inductive PPStep : PPState → PPState → Prop where
  /-- `select` delivers a batch: the cache is written under the lock. -/
  | applyBatch (s : PPState) (h : s.loopPhase = .running) :
      PPStep s { s with cacheWrites := s.cacheWrites + 1 }
  /-- `select` observes the closed stop channel and `loop` returns. -/
  | recvStop (s : PPState) (h : s.loopPhase = .running)
      (hs : s.stopClosed = true) :
      PPStep s { s with loopPhase := .closingSource }
  /-- The deferred `p.source.Close()` runs. -/
  | sourceClose (s : PPState) (h : s.loopPhase = .closingSource) :
      PPStep s { s with loopPhase := .closingDone,
                        sourceCloseCount := s.sourceCloseCount + 1 }
  /-- The deferred `close(p.done)` runs and the task exits. -/
  | doneClose (s : PPState) (h : s.loopPhase = .closingDone) :
      PPStep s { s with loopPhase := .exited, doneClosed := true }
  /-- A caller invokes `Close()`: `close(p.stopSignal)`. -/
  | callClose (s : PPState) (h : s.closeCalled = false) :
      PPStep s { s with closeCalled := true, stopClosed := true }
  /-- The `<-p.done` receive in `Close()` fires and `Close` returns. -/
  | closeReturn (s : PPState) (h : s.closeCalled = true)
      (hd : s.doneClosed = true) (hr : s.closeReturned = false) :
      PPStep s { s with closeReturned := true }

/-- States reachable from the freshly constructed provider. -/
inductive PPReachable : PPState → Prop where
  | init : PPReachable PPState.init
  | step {s t : PPState} : PPReachable s → PPStep s t → PPReachable t

/-- How many times the source has been closed in each loop phase. -/
def phaseCloseCount : LoopPhase → ℕ
  | .running => 0
  | .closingSource => 0
  | .closingDone => 1
  | .exited => 1

/-- The inductive invariant of the shutdown handshake. -/
def PPInv (s : PPState) : Prop :=
  (s.closeReturned = true → s.closeCalled = true) ∧
  (s.closeCalled = true → s.stopClosed = true) ∧
  (s.closeReturned = true → s.doneClosed = true) ∧
  (s.doneClosed = true → s.loopPhase = .exited) ∧
  s.sourceCloseCount = phaseCloseCount s.loopPhase

end PriceFeeder

namespace PriceFeeder

/-- C1: for a mapped pair, `GetPrice` returns the raw cached value
(zero if no tick was ever received, the last observed value otherwise,
never zeroed on staleness), and `valid` is true iff a cache entry exists
and its age is strictly below the staleness timeout. -/
theorem getPrice_mapped_raw_value_and_staleness
    (p : PriceProvider) (priceTimeout now : ℤ) (pair : AssetPair)
    (symbol : Symbol)
    (hmap : p.pairToSymbolMapping.lookup pair = some symbol) :
    (p.lastPrices.lookup symbol = none →
        (p.GetPrice priceTimeout now pair).price = 0 ∧
        (p.GetPrice priceTimeout now pair).valid = false) ∧
    (∀ rp : RawPrice, p.lastPrices.lookup symbol = some rp →
        (p.GetPrice priceTimeout now pair).price = rp.price ∧
        ((p.GetPrice priceTimeout now pair).valid = true ↔
          now - rp.updateTime < priceTimeout)) := by
  constructor
  · intro hnone
    simp [PriceProvider.GetPrice, hmap, hnone, RawPrice.zero, isValid]
  · intro rp hsome
    simp [PriceProvider.GetPrice, hmap, hsome, isValid]

/-- Witness for C1: a provider with one mapped pair, exercised both on a
fresh cache entry and after evaluating the returned record. -/
theorem getPrice_mapped_raw_value_and_staleness_witness :
    (let p : PriceProvider :=
      ⟨"binance", [("ubtc:unusd", "BTCUSD")], [("BTCUSD", ⟨100, 5⟩)]⟩
     p.pairToSymbolMapping.lookup "ubtc:unusd" = some "BTCUSD") ∧
    (let p : PriceProvider :=
      ⟨"binance", [("ubtc:unusd", "BTCUSD")], [("BTCUSD", ⟨100, 5⟩)]⟩
     (p.lastPrices.lookup "BTCUSD" = none →
        (p.GetPrice 10 8 "ubtc:unusd").price = 0 ∧
        (p.GetPrice 10 8 "ubtc:unusd").valid = false) ∧
     (∀ rp : RawPrice, p.lastPrices.lookup "BTCUSD" = some rp →
        (p.GetPrice 10 8 "ubtc:unusd").price = rp.price ∧
        ((p.GetPrice 10 8 "ubtc:unusd").valid = true ↔
          (8 : ℤ) - rp.updateTime < 10))) :=
  ⟨by decide,
   getPrice_mapped_raw_value_and_staleness
     ⟨"binance", [("ubtc:unusd", "BTCUSD")], [("BTCUSD", ⟨100, 5⟩)]⟩
     10 8 "ubtc:unusd" "BTCUSD" (by decide)⟩

/-- C2: for an unmapped pair, `GetPrice` returns
`{pair, price := -1, sourceName, valid := false}` and the result is
independent of the cache contents (the cache lock is never taken) and of
the clock; no error is possible (the function is total). -/
theorem getPrice_unmapped_abstain
    (p : PriceProvider) (priceTimeout now : ℤ) (pair : AssetPair)
    (hmap : p.pairToSymbolMapping.lookup pair = none) :
    p.GetPrice priceTimeout now pair =
      { pair := pair
        price := -1
        sourceName := p.sourceName
        valid := false } ∧
    (∀ (cache : List (Symbol × RawPrice)) (t n : ℤ),
      PriceProvider.GetPrice
        { p with lastPrices := cache } t n pair =
        p.GetPrice priceTimeout now pair) := by
  constructor
  · simp [PriceProvider.GetPrice, hmap]
  · intro cache t n
    simp [PriceProvider.GetPrice, hmap]

/-- `toAbstain` only touches the price value: the pair is preserved. -/
theorem toAbstain_pair (p : Price) : (toAbstain p).pair = p.pair := by
  unfold toAbstain
  split <;> rfl

/-- `toAbstain` also preserves the valid flag. -/
theorem toAbstain_valid (p : Price) : (toAbstain p).valid = p.valid := by
  unfold toAbstain
  split <;> simp_all

/-- C3: on a voting-period-start event the Feeder emits, to
`SendPrices`, the triggering height together with one vote entry per
pair of the currently held `Params.pairs`, in the same order, each
obtained from `GetPrice` on that pair (abstain-substituted); the held
params are unchanged.  The hypothesis — `GetPrice` tags its result with
the queried pair — holds for the provider's `GetPrice`. -/
theorem votingPeriod_votes_ordered
    (getPrice : AssetPair → Price) (f : Feeder) (vp : VotingPeriod)
    (hpair : ∀ pair, (getPrice pair).pair = pair) :
    handleEvent getPrice f (.votingPeriod vp) =
      (f, some (vp.height, assembleVotes getPrice f.params)) ∧
    (assembleVotes getPrice f.params).length = f.params.pairs.length ∧
    (∀ i : ℕ, (assembleVotes getPrice f.params)[i]? =
      (f.params.pairs[i]?).map fun pair => toAbstain (getPrice pair)) ∧
    (∀ i : ℕ, ((assembleVotes getPrice f.params)[i]?).map Price.pair =
      f.params.pairs[i]?) := by
  refine ⟨rfl, by simp [assembleVotes], ?_, ?_⟩
  · intro i
    simp [assembleVotes]
  · intro i
    simp [assembleVotes, toAbstain_pair, hpair]
    cases f.params.pairs[i]? <;> simp [toAbstain_pair, hpair]

/-- Witness for C3: the test configuration
`Params{pairs = [BTC_NUSD, ETH_NUSD]}` at height 100. -/
theorem votingPeriod_votes_ordered_witness :
    (let g : AssetPair → Price := fun pair => ⟨pair, 100, "mock-source", true⟩
     let f : Feeder := ⟨⟨["ubtc:unusd", "ueth:unusd"], 50⟩⟩
     handleEvent g f (.votingPeriod ⟨100⟩) =
       (f, some (100, assembleVotes g f.params)) ∧
     (assembleVotes g f.params).length = f.params.pairs.length ∧
     (∀ i : ℕ, (assembleVotes g f.params)[i]? =
       (f.params.pairs[i]?).map fun pair => toAbstain (g pair)) ∧
     (∀ i : ℕ, ((assembleVotes g f.params)[i]?).map Price.pair =
       f.params.pairs[i]?)) :=
  votingPeriod_votes_ordered
    (fun pair => ⟨pair, 100, "mock-source", true⟩)
    ⟨⟨["ubtc:unusd", "ueth:unusd"], 50⟩⟩ ⟨100⟩ (fun _ => rfl)

/-- C4: in the vote list handed to `SendPrices`, an entry whose valid
flag is false has its price value replaced by 0 (the abstain
convention), everything else unchanged, while a valid entry is exactly
the `GetPrice` result. -/
theorem votes_abstain_substitution
    (getPrice : AssetPair → Price) (params : Params)
    (pair : AssetPair) (i : ℕ) (h : params.pairs[i]? = some pair) :
    ((getPrice pair).valid = false →
      (assembleVotes getPrice params)[i]? =
        some { getPrice pair with price := 0 }) ∧
    ((getPrice pair).valid = true →
      (assembleVotes getPrice params)[i]? = some (getPrice pair)) := by
  constructor
  · intro hinvalid
    simp [assembleVotes, h, toAbstain, hinvalid]
  · intro hvalid
    simp [assembleVotes, h, toAbstain, hvalid]

/-- Witness for C4: the test scenario — BTC_NUSD valid at 100000.8,
ETH_NUSD invalid at 7000.11; the invalid entry sent is the abstain
record with price 0 and the valid one is passed through unchanged. -/
theorem votes_abstain_substitution_witness :
    (let g : AssetPair → Price := fun pair =>
      if pair = "ubtc:unusd" then ⟨"ubtc:unusd", 500004/5, "mock-source", true⟩
      else ⟨"ueth:unusd", 700011/100, "mock-source", false⟩
     let params : Params := ⟨["ubtc:unusd", "ueth:unusd"], 50⟩
     (params.pairs[1]? = some "ueth:unusd") ∧
     (params.pairs[0]? = some "ubtc:unusd") ∧
     ((g "ueth:unusd").valid = false →
       (assembleVotes g params)[1]? =
         some { g "ueth:unusd" with price := 0 }) ∧
     ((g "ubtc:unusd").valid = true →
       (assembleVotes g params)[0]? = some (g "ubtc:unusd"))) :=
  ⟨by decide, by decide,
   (votes_abstain_substitution
     (fun pair =>
       if pair = "ubtc:unusd" then ⟨"ubtc:unusd", 500004/5, "mock-source", true⟩
       else ⟨"ueth:unusd", 700011/100, "mock-source", false⟩)
     ⟨["ubtc:unusd", "ueth:unusd"], 50⟩ "ueth:unusd" 1 (by decide)).1,
   (votes_abstain_substitution
     (fun pair =>
       if pair = "ubtc:unusd" then ⟨"ubtc:unusd", 500004/5, "mock-source", true⟩
       else ⟨"ueth:unusd", 700011/100, "mock-source", false⟩)
     ⟨["ubtc:unusd", "ueth:unusd"], 50⟩ "ubtc:unusd" 0 (by decide)).2⟩

/-- C5: a voting-period event arriving before any `Params` update is
handled normally: the Feeder (still holding the zero-value `Params`)
emits an empty vote list at the triggering height, for every price
function — `handleEvent` is total, so no error or crash is possible. -/
theorem votingPeriod_before_params_empty
    (getPrice : AssetPair → Price) (vp : VotingPeriod) :
    handleEvent getPrice Feeder.initial (.votingPeriod vp) =
      (Feeder.initial, some (vp.height, [])) := rfl

/-- C6: `SignByAddress` at the held address returns the signature of
the message under the held private key together with the held public
key; at any other address it returns the "key not found" error value.
`KeyByAddress` likewise returns the held key's info on a match and the
"key not found" error otherwise.  Neither call can panic. -/
theorem signByAddress_address_scoped
    (sign : PrivKey → Msg → Except String Sig)
    (k : PrivKeyKeyring) (address : Address) (msg : Msg) :
    (address = k.addr →
      (∀ s : Sig, sign k.privKey msg = .ok s →
        PrivKeyKeyring.SignByAddress sign k address msg = .ok (s, k.pubKey)) ∧
      k.KeyByAddress address = .ok ⟨k.pubKey, k.addr⟩) ∧
    (address ≠ k.addr →
      PrivKeyKeyring.SignByAddress sign k address msg = .err "key not found" ∧
      k.KeyByAddress address = .err "key not found") ∧
    (∀ m : String,
      PrivKeyKeyring.SignByAddress sign k address msg ≠ .panicked m) ∧
    (∀ m : String, k.KeyByAddress address ≠ .panicked m) := by
  refine ⟨?_, ?_, ?_, ?_⟩
  · intro heq
    subst heq
    refine ⟨?_, ?_⟩
    · intro s hs
      simp [PrivKeyKeyring.SignByAddress, hs]
    · simp [PrivKeyKeyring.KeyByAddress]
  · intro hne
    exact ⟨by simp [PrivKeyKeyring.SignByAddress, Ne.symm hne],
           by simp [PrivKeyKeyring.KeyByAddress, hne]⟩
  · intro m
    unfold PrivKeyKeyring.SignByAddress
    split
    · simp
    · split <;> simp
  · intro m
    unfold PrivKeyKeyring.KeyByAddress
    split <;> simp

/-- Witness for C6: a concrete keyring `⟨5, 7, 9⟩` with a concrete
signing function, exercised at the held address 5 (signing succeeds)
and at the foreign address 6 (not-found error). -/
theorem signByAddress_address_scoped_witness :
    PrivKeyKeyring.SignByAddress (fun pk m => .ok (pk + m.sum))
      ⟨5, 7, 9⟩ 5 [1, 2] = .ok (12, 7) ∧
    PrivKeyKeyring.KeyByAddress ⟨5, 7, 9⟩ 5 = .ok ⟨7, 5⟩ ∧
    PrivKeyKeyring.SignByAddress (fun pk m => .ok (pk + m.sum))
      ⟨5, 7, 9⟩ 6 [1, 2] = .err "key not found" ∧
    PrivKeyKeyring.KeyByAddress ⟨5, 7, 9⟩ 6 = .err "key not found" :=
  ⟨((signByAddress_address_scoped (fun pk m => .ok (pk + m.sum))
      ⟨5, 7, 9⟩ 5 [1, 2]).1 rfl).1 12 rfl,
   ((signByAddress_address_scoped (fun pk m => .ok (pk + m.sum))
      ⟨5, 7, 9⟩ 5 [1, 2]).1 rfl).2,
   ((signByAddress_address_scoped (fun pk m => .ok (pk + m.sum))
      ⟨5, 7, 9⟩ 6 [1, 2]).2.1 (by decide)).1,
   ((signByAddress_address_scoped (fun pk m => .ok (pk + m.sum))
      ⟨5, 7, 9⟩ 6 [1, 2]).2.1 (by decide)).2⟩

/-- C7, counterexample: the claim says an unsupported capability yields
a distinct "unsupported operation" failure returned to the caller,
never a crash; but `List` on the keyring panics with "must never be
called" — it returns no error value at all. -/
theorem unsupported_op_is_panic :
    PrivKeyKeyring.List ⟨5, 7, 9⟩ = .panicked "must never be called" ∧
    ∀ m : String, PrivKeyKeyring.List ⟨5, 7, 9⟩ ≠ .err m := by
  constructor
  · rfl
  · intro m h
    exact GoResult.noConfusion h

/-- C7, amended: every capability of the keyring interface outside
address-scoped lookup and signing panics with the uniform message
"must never be called" — an abort of the calling task, never a value or
an error returned to the caller. -/
theorem unsupported_ops_all_panic
    (k : PrivKeyKeyring) (uid language hdPath pass algo hrp armor : String)
    (coinType account index : ℕ) (address : Address) (pubkey : PubKey) :
    k.List = .panicked mustNeverBeCalled ∧
    k.SupportedAlgorithms = .panicked mustNeverBeCalled ∧
    k.Delete uid = .panicked mustNeverBeCalled ∧
    k.DeleteByAddress address = .panicked mustNeverBeCalled ∧
    k.NewMnemonic uid language hdPath pass algo = .panicked mustNeverBeCalled ∧
    k.NewAccount uid pass pass hdPath algo = .panicked mustNeverBeCalled ∧
    k.SaveLedgerKey uid algo hrp coinType account index =
      .panicked mustNeverBeCalled ∧
    k.SavePubKey uid pubkey algo = .panicked mustNeverBeCalled ∧
    k.SaveMultisig uid pubkey = .panicked mustNeverBeCalled ∧
    k.ImportPrivKey uid armor pass = .panicked mustNeverBeCalled ∧
    k.ImportPubKey uid armor = .panicked mustNeverBeCalled ∧
    k.ExportPubKeyArmor uid = .panicked mustNeverBeCalled ∧
    k.ExportPubKeyArmorByAddress address = .panicked mustNeverBeCalled ∧
    k.ExportPrivKeyArmor uid pass = .panicked mustNeverBeCalled ∧
    k.ExportPrivKeyArmorByAddress address pass = .panicked mustNeverBeCalled :=
  ⟨rfl, rfl, rfl, rfl, rfl, rfl, rfl, rfl, rfl, rfl, rfl, rfl, rfl, rfl, rfl⟩

/-- C9: the name-keyed operations ignore the uid entirely: `Key(uid)`
always returns the held key's info (never not-found), and `Sign(uid,
msg)` always signs with the held private key — both coincide for every
pair of uids. -/
theorem key_sign_ignore_uid
    (sign : PrivKey → Msg → Except String Sig)
    (k : PrivKeyKeyring) (uid uid2 : String) (msg : Msg) :
    k.Key uid = .ok ⟨k.pubKey, k.addr⟩ ∧
    k.Key uid = k.Key uid2 ∧
    PrivKeyKeyring.Sign sign k uid msg =
      PrivKeyKeyring.SignByAddress sign k k.addr msg ∧
    (∀ s : Sig, sign k.privKey msg = .ok s →
      PrivKeyKeyring.Sign sign k uid msg = .ok (s, k.pubKey)) := by
  refine ⟨?_, rfl, rfl, ?_⟩
  · simp [PrivKeyKeyring.Key, PrivKeyKeyring.KeyByAddress]
  · intro s hs
    simp [PrivKeyKeyring.Sign, PrivKeyKeyring.SignByAddress, hs]

/-- Witness for C9: two unrelated uids give the same successful result
on the concrete keyring `⟨5, 7, 9⟩`. -/
theorem key_sign_ignore_uid_witness :
    PrivKeyKeyring.Key ⟨5, 7, 9⟩ "whatever" = .ok ⟨7, 5⟩ ∧
    PrivKeyKeyring.Sign (fun pk m => .ok (pk + m.sum))
      ⟨5, 7, 9⟩ "other-uid" [1, 2] = .ok (12, 7) :=
  ⟨(key_sign_ignore_uid (fun pk m => .ok (pk + m.sum))
      ⟨5, 7, 9⟩ "whatever" "other-uid" [1, 2]).1,
   (key_sign_ignore_uid (fun pk m => .ok (pk + m.sum))
      ⟨5, 7, 9⟩ "other-uid" "whatever" [1, 2]).2.2.2 12 rfl⟩

/-- Every reachable state of the shutdown handshake satisfies the
inductive invariant `PPInv`. -/
theorem ppInv_reachable {s : PPState} (h : PPReachable s) : PPInv s := by
  induction h with
  | init =>
      simp [PPInv, PPState.init, phaseCloseCount]
  | step hr hstep ih =>
      cases hstep with
      | applyBatch h =>
          unfold PPInv at ih ⊢
          simp_all [phaseCloseCount]
      | recvStop h hs =>
          unfold PPInv at ih ⊢
          simp_all [phaseCloseCount]
      | sourceClose h =>
          unfold PPInv at ih ⊢
          simp_all [phaseCloseCount]
      | doneClose h =>
          unfold PPInv at ih ⊢
          simp_all [phaseCloseCount]
      | callClose h =>
          unfold PPInv at ih ⊢
          simp_all [phaseCloseCount]
      | closeReturn h hd hr' =>
          unfold PPInv at ih ⊢
          simp_all [phaseCloseCount]

/-- C8: in every reachable state in which `Close()` has returned, the
stop channel has been signalled, the consumer task has fully exited,
the source has been closed exactly once, and no further step can write
the cache or close the source again. -/
theorem close_returns_after_full_shutdown
    (s : PPState) (hr : PPReachable s) (hc : s.closeReturned = true) :
    s.stopClosed = true ∧
    s.loopPhase = .exited ∧
    s.sourceCloseCount = 1 ∧
    (∀ t : PPState, PPStep s t →
      t.cacheWrites = s.cacheWrites ∧
      t.sourceCloseCount = s.sourceCloseCount) := by
  obtain ⟨h1, h2, h3, h4, h5⟩ := ppInv_reachable hr
  have hcalled : s.closeCalled = true := h1 hc
  have hexited : s.loopPhase = .exited := h4 (h3 hc)
  refine ⟨h2 hcalled, hexited, by simp [h5, hexited, phaseCloseCount], ?_⟩
  intro t hstep
  cases hstep with
  | applyBatch h => simp_all
  | recvStop h hs => simp_all
  | sourceClose h => simp_all
  | doneClose h => simp_all
  | callClose h => simp_all
  | closeReturn h hd hr' => simp_all

/-- Witness for C8: the state reached by the trace
construct → Close() → stop observed → source closed → done closed →
Close returns, with one pending batch applied after the stop signal was
raised but before the loop observed it. -/
theorem close_returns_after_full_shutdown_witness :
    (PPState.mk .exited true true 1 true true 1).stopClosed = true ∧
    (PPState.mk .exited true true 1 true true 1).loopPhase = .exited ∧
    (PPState.mk .exited true true 1 true true 1).sourceCloseCount = 1 ∧
    (∀ t : PPState, PPStep (PPState.mk .exited true true 1 true true 1) t →
      t.cacheWrites = (PPState.mk .exited true true 1 true true 1).cacheWrites ∧
      t.sourceCloseCount =
        (PPState.mk .exited true true 1 true true 1).sourceCloseCount) := by
  refine close_returns_after_full_shutdown _ ?_ rfl
  have h0 : PPReachable PPState.init := PPReachable.init
  have h1 : PPReachable ⟨.running, true, false, 0, true, false, 0⟩ :=
    h0.step (PPStep.callClose _ rfl)
  have h2 : PPReachable ⟨.running, true, false, 0, true, false, 1⟩ :=
    h1.step (PPStep.applyBatch _ rfl)
  have h3 : PPReachable ⟨.closingSource, true, false, 0, true, false, 1⟩ :=
    h2.step (PPStep.recvStop _ rfl rfl)
  have h4 : PPReachable ⟨.closingDone, true, false, 1, true, false, 1⟩ :=
    h3.step (PPStep.sourceClose _ rfl)
  have h5 : PPReachable ⟨.exited, true, true, 1, true, false, 1⟩ :=
    h4.step (PPStep.doneClose _ rfl)
  exact h5.step (PPStep.closeReturn _ rfl rfl rfl)

/-- C10: `NewPriceProvider` panics (with the "unknown price provider"
message) for every source name other than the registered exchange
names, and for a registered name returns a provider wrapping a tick
source built from exactly the symbols occurring in the mapping. -/
theorem newPriceProvider_registered_or_panic
    (sourceName : String) (m : List (AssetPair × Symbol)) :
    (sourceName ≠ sources.Bitfinex → sourceName ≠ sources.Binance →
      NewPriceProvider sourceName m =
        .panicked ("unknown price provider: " ++ sourceName)) ∧
    (sourceName = sources.Bitfinex ∨ sourceName = sources.Binance →
      ∃ b : BuiltPriceProvider,
        NewPriceProvider sourceName m = .ok b ∧
        b.sourceName = sourceName ∧
        b.pairToSymbolMapping = m ∧
        (∀ s : Symbol, s ∈ b.source.symbols ↔
          ∃ pair : AssetPair, (pair, s) ∈ m)) := by
  constructor
  · intro h1 h2
    simp [NewPriceProvider, h1, h2]
  · intro hreg
    rcases hreg with h | h
    · refine ⟨⟨⟨symbolsFromPairToSymbolMapping m, "BitfinexPriceUpdate"⟩,
        sourceName, m⟩, ?_, rfl, rfl, ?_⟩
      · simp [NewPriceProvider, h]
      · intro s
        simp only [symbolsFromPairToSymbolMapping, List.mem_map]
        constructor
        · rintro ⟨⟨pair, sym⟩, hmem, hs⟩
          subst hs
          exact ⟨pair, hmem⟩
        · rintro ⟨pair, hmem⟩
          exact ⟨(pair, s), hmem, rfl⟩
    · refine ⟨⟨⟨symbolsFromPairToSymbolMapping m, "BinancePriceUpdate"⟩,
        sourceName, m⟩, ?_, rfl, rfl, ?_⟩
      · simp [NewPriceProvider, h, sources.Bitfinex, sources.Binance]
      · intro s
        simp only [symbolsFromPairToSymbolMapping, List.mem_map]
        constructor
        · rintro ⟨⟨pair, sym⟩, hmem, hs⟩
          subst hs
          exact ⟨pair, hmem⟩
        · rintro ⟨pair, hmem⟩
          exact ⟨(pair, s), hmem, rfl⟩

/-- Witness for C10: an unknown name panics; the Binance name yields a
source subscribed to exactly the mapping's symbols. -/
theorem newPriceProvider_registered_or_panic_witness :
    (NewPriceProvider "kraken" [("ubtc:unusd", "BTCUSDT")] =
      .panicked "unknown price provider: kraken") ∧
    (∃ b : BuiltPriceProvider,
      NewPriceProvider sources.Binance [("ubtc:unusd", "BTCUSDT")] = .ok b ∧
      b.sourceName = sources.Binance ∧
      b.pairToSymbolMapping = [("ubtc:unusd", "BTCUSDT")] ∧
      (∀ s : Symbol, s ∈ b.source.symbols ↔
        ∃ pair : AssetPair, (pair, s) ∈ [("ubtc:unusd", "BTCUSDT")])) :=
  ⟨(newPriceProvider_registered_or_panic "kraken"
      [("ubtc:unusd", "BTCUSDT")]).1 (by decide) (by decide),
   (newPriceProvider_registered_or_panic sources.Binance
      [("ubtc:unusd", "BTCUSDT")]).2 (Or.inr rfl)⟩

/-- Witness for C2: a provider whose mapping lacks the queried pair. -/
theorem getPrice_unmapped_abstain_witness :
    (let p : PriceProvider := ⟨"bitfinex", [("ubtc:unusd", "tBTCUSD")], []⟩
     p.GetPrice 10 8 "ueth:unusd" =
       { pair := "ueth:unusd"
         price := -1
         sourceName := "bitfinex"
         valid := false } ∧
     (∀ (cache : List (Symbol × RawPrice)) (t n : ℤ),
       PriceProvider.GetPrice
         { p with lastPrices := cache } t n "ueth:unusd" =
         p.GetPrice 10 8 "ueth:unusd")) :=
  getPrice_unmapped_abstain
    ⟨"bitfinex", [("ubtc:unusd", "tBTCUSD")], []⟩ 10 8 "ueth:unusd"
    (by decide)

end PriceFeeder
